import Mathlib

/-!
# The asar binding layer (`shell/common/api/electron_api_asar.cc`)

A shallow embedding of the `Archive` wrapper class and of the free functions
`SplitPath` and `Archive::Create`, followed by theorems about bounds-checked
reads, the asynchronous read, the lookup wrappers, path splitting and archive
creation.

Conventions of the embedding:

* `uint64_t` values are natural numbers; the width matters in the checked
  addition of `base::CheckedNumeric<uint64_t>` and where a value is handed to
  script, which stores numbers as IEEE 754 doubles (`uint64ToDouble`).
* A `bool f(path, &out)` engine call is a function into `Option`: `none` is the
  `false` return, `some out` the `true` return with the out-parameter filled.
* Effects on the host (pending exception, promises, posted tasks, buffer
  allocations and copies, engine initialisations) are explicit fields of `Env`,
  threaded through every operation.
* Undefined behaviour (dereferencing a null `archive_`, a `memcpy` that leaves
  the mapped file) is the outer `none` of an `Option` result.
-/

namespace Asar

/-! ## Data model -/

/-- A `base::FilePath`, kept as its string. -/
abbrev FilePath := String

/-- The largest value of a `uint64_t`. -/
def UINT64_MAX : Nat := 2 ^ 64 - 1

/-- The mapped archive file returned by `archive_->file()`: its bytes, and the
fact that its `length()` is a `size_t`. -/
structure MemoryMappedFile where
  data : List Nat
  length_le : data.length ≤ UINT64_MAX

/-- The accessor `length()` of the mapped file. -/
def MemoryMappedFile.length (f : MemoryMappedFile) : Nat := f.data.length

/-- The fields of `asar::Archive::FileInfo` that the binding reads. -/
structure FileInfo where
  size : Nat
  unpacked : Bool
  offset : Nat
deriving DecidableEq, Repr

/-- The fields of `asar::Archive::Stats` that the binding reads. -/
structure Stats where
  size : Nat
  offset : Nat
  is_file : Bool
  is_directory : Bool
  is_link : Bool
deriving DecidableEq, Repr

/-- Modelled from the spec: the engine class `asar::Archive` of
`shell/common/asar/archive.h` is not part of the sources; this is what a
successfully initialised engine archive offers to the binding: the blob and
the five lookups of the Entry Accessor, each an `Option` (absent or found). -/
structure ArchiveContents where
  file : MemoryMappedFile
  GetFileInfo : FilePath → Option FileInfo
  Stat : FilePath → Option Stats
  Readdir : FilePath → Option (List FilePath)
  Realpath : FilePath → Option FilePath
  CopyFileOut : FilePath → Option FilePath

/-- Modelled from the spec: an engine archive is identified by the path it was
constructed with (`asar::Archive(path)`, read back by `path()`), and owns its
contents. -/
structure AsarArchive extends ArchiveContents where
  path : FilePath

/-- The wrapper class `Archive` of the binding: its only member is
`std::shared_ptr<asar::Archive> archive_`, which may be null. -/
structure Archive where
  archive_ : Option AsarArchive

/-- The script values the binding hands back. A `number` is given by its
numeric value; every number the binding produces is a non-negative integer. -/
inductive V8Value where
  | boolean (b : Bool)
  | number (n : Nat)
  | string (s : String)
  | array (xs : List V8Value)
  | object (fields : List (String × V8Value))
  | wrapper (a : Archive)

/-- The value `v8::False(isolate)`. -/
def V8Value.False : V8Value := V8Value.boolean false

/-- The number of low bits a value loses in the 53-bit significand of a double:
the least `e` with `n / 2 ^ e < 2 ^ 53`, found by halving at most `fuel` times.
A `uint64_t` needs at most 11 halvings. -/
def lostBits : Nat → Nat → Nat
  | 0, _ => 0
  | fuel + 1, n => if n < 2 ^ 53 then 0 else lostBits fuel (n / 2) + 1

/-- The conversion `static_cast<double>(val)` of a `uint64_t`, by which
`dict.Set(key, val)` turns an unsigned 64-bit value into a script number: the
value is rounded to the nearest integer with a 53-bit significand, ties to the
even significand. The result is the numeric value of that double. -/
def uint64ToDouble (n : Nat) : Nat :=
  let e := lostBits 64 n
  let q := n / 2 ^ e
  let r := n % 2 ^ e
  if 2 * r < 2 ^ e then q * 2 ^ e
  else if 2 ^ e < 2 * r then (q + 1) * 2 ^ e
  else if q % 2 = 0 then q * 2 ^ e
  else (q + 1) * 2 ^ e

/-- The state of a promise. -/
inductive PromiseState where
  | pending
  | resolved (buffer : List Nat)
  | rejected (msg : String)
deriving DecidableEq, Repr

/-- One call of `base::ThreadPool::PostTaskAndReplyWithResult` made by `Read`:
the arguments bound to the task `ReadOnIO` (archive, offset, length) and the
promise bound to the reply `ResolveReadOnUI`. -/
structure PostedTask where
  archive : Option AsarArchive
  offset : Nat
  length : Nat
  promise : Nat

/-- Buffer allocations and copies out of the mapped file. -/
inductive MemOp where
  | newArrayBuffer (length : Nat)
  | newBackingStore (length : Nat)
  | memcpy (offset length : Nat)
deriving DecidableEq, Repr

/-- The host as seen by the binding. `exception` is the exception pending in
the isolate, `promises` the promises created so far (a promise is its index),
`tasks` the tasks posted to the thread pool so far, `memOps` the log
of allocations and copies, `inits` the log of engine `Init` calls. -/
structure Env where
  exception : Option String
  promises : List PromiseState
  tasks : List PostedTask
  memOps : List MemOp
  inits : List FilePath

/-- A host on which nothing has happened yet. -/
def Env.empty : Env := ⟨none, [], [], [], []⟩

/-! ## Host primitives -/

/-- The call `thrower.ThrowError(msg)`: the error becomes the pending exception. -/
def ThrowError (msg : String) (env : Env) : Env :=
  { env with exception := some msg }

/-- Construction of a `gin_helper::Promise`: a fresh pending promise. -/
def NewPromise (env : Env) : Nat × Env :=
  (env.promises.length, { env with promises := env.promises ++ [PromiseState.pending] })

/-- The call `promise.Resolve(value)`: a pending promise becomes resolved, a
settled one is left alone. -/
def Resolve (promise : Nat) (buffer : List Nat) (env : Env) : Env :=
  match env.promises[promise]? with
  | some PromiseState.pending =>
    { env with promises := env.promises.set promise (PromiseState.resolved buffer) }
  | _ => env

/-- The call `PostTaskAndReplyWithResult(task, reply)`: the pair is queued. -/
def PostTaskAndReplyWithResult (t : PostedTask) (env : Env) : Env :=
  { env with tasks := env.tasks ++ [t] }

/-- Appends one entry to the log of memory operations. -/
def logMem (op : MemOp) (env : Env) : Env :=
  { env with memOps := env.memOps ++ [op] }

/-- The copy `memcpy(dst, src + offset, length)`, byte by byte. Reading a byte
that is not in `src` is undefined behaviour (`none`). -/
def memcpy (src : List Nat) (offset : Nat) : Nat → Option (List Nat)
  | 0 => some []
  | n + 1 =>
    match src[offset]? with
    | none => none
    | some b => (memcpy src (offset + 1) n).map (fun rest => b :: rest)

/-- A `base::CheckedNumeric<uint64_t>`: `none` is the invalid state. -/
abbrev CheckedNumeric := Option Nat

/-- The checked sum `safe_offset + length` on `uint64_t`. -/
def CheckedNumeric.add (a : CheckedNumeric) (b : Nat) : CheckedNumeric :=
  match a with
  | none => none
  | some x => if x + b ≤ UINT64_MAX then some (x + b) else none

/-- The error text of both read operations. -/
def outOfBoundsMessage : String := "Out of bounds read requested in ASAR"

/-! ## The read operations -/

/-- The method `Archive::ReadSync`. The result is the returned
`v8::Local<v8::ArrayBuffer>` (`none` is the empty handle) and the host
afterwards. -/
def ReadSync (self : Archive) (offset length : Nat) (env : Env) :
    Option (Option (List Nat) × Env) :=
  let safe_offset : CheckedNumeric := some offset
  let safe_end := CheckedNumeric.add safe_offset length
  match safe_end with
  | none => some (none, ThrowError outOfBoundsMessage env)
  | some end_ =>
    match self.archive_ with
    | none => none
    | some archive =>
      if end_ > archive.file.length then
        some (none, ThrowError outOfBoundsMessage env)
      else
        let env1 := logMem (MemOp.newArrayBuffer length) env
        let env2 := logMem (MemOp.memcpy offset length) env1
        match memcpy archive.file.data offset length with
        | none => none
        | some backing_store => some (some backing_store, env2)

/-- The method `Archive::Read`. The result is the returned
`v8::Local<v8::Promise>` (`none` is the empty handle) and the host afterwards. -/
def Read (self : Archive) (offset length : Nat) (env : Env) :
    Option (Option Nat × Env) :=
  let (promise, env0) := NewPromise env
  let handle := promise
  let safe_offset : CheckedNumeric := some offset
  let safe_end := CheckedNumeric.add safe_offset length
  match safe_end with
  | none => some (none, ThrowError outOfBoundsMessage env0)
  | some end_ =>
    match self.archive_ with
    | none => none
    | some archive =>
      if end_ > archive.file.length then
        some (none, ThrowError outOfBoundsMessage env0)
      else
        some (some handle,
          PostTaskAndReplyWithResult ⟨some archive, offset, length, promise⟩ env0)

/-- The static function `Archive::ReadOnIO`, the task run on the pool. -/
def ReadOnIO (archive : Option AsarArchive) (offset length : Nat) (env : Env) :
    Option (List Nat × Env) :=
  let env1 := logMem (MemOp.newBackingStore length) env
  match archive with
  | none => none
  | some a =>
    let env2 := logMem (MemOp.memcpy offset length) env1
    match memcpy a.file.data offset length with
    | none => none
    | some backing_store => some (backing_store, env2)

/-- The static function `Archive::ResolveReadOnUI`, the reply. -/
def ResolveReadOnUI (promise : Nat) (backing_store : List Nat) (env : Env) : Env :=
  Resolve promise backing_store env

/-- Runs one posted task and then its reply with the task's result. -/
def runTask (t : PostedTask) (env : Env) : Option Env :=
  match ReadOnIO t.archive t.offset t.length env with
  | none => none
  | some (backing_store, env1) => some (ResolveReadOnUI t.promise backing_store env1)

/-- The tasks posted between two hosts: those queued after the first ones. -/
def postedTasks (before after : Env) : List PostedTask :=
  after.tasks.drop before.tasks.length

/-! ## The lookup wrappers -/

/-- The method `Archive::GetFileInfo`. -/
def GetFileInfo (self : Archive) (path : FilePath) (env : Env) : V8Value × Env :=
  match self.archive_ with
  | none => (V8Value.False, env)
  | some archive =>
    match archive.GetFileInfo path with
    | none => (V8Value.False, env)
    | some info =>
      (V8Value.object [("size", V8Value.number (uint64ToDouble info.size)),
                       ("unpacked", V8Value.boolean info.unpacked),
                       ("offset", V8Value.number (uint64ToDouble info.offset))], env)

/-- The method `Archive::Stat`. -/
def Stat (self : Archive) (path : FilePath) (env : Env) : V8Value × Env :=
  match self.archive_ with
  | none => (V8Value.False, env)
  | some archive =>
    match archive.Stat path with
    | none => (V8Value.False, env)
    | some stats =>
      (V8Value.object [("size", V8Value.number (uint64ToDouble stats.size)),
                       ("offset", V8Value.number (uint64ToDouble stats.offset)),
                       ("isFile", V8Value.boolean stats.is_file),
                       ("isDirectory", V8Value.boolean stats.is_directory),
                       ("isLink", V8Value.boolean stats.is_link)], env)

/-- The method `Archive::Readdir`. -/
def Readdir (self : Archive) (path : FilePath) (env : Env) : V8Value × Env :=
  match self.archive_ with
  | none => (V8Value.False, env)
  | some archive =>
    match archive.Readdir path with
    | none => (V8Value.False, env)
    | some files => (V8Value.array (files.map V8Value.string), env)

/-- The method `Archive::Realpath`. -/
def Realpath (self : Archive) (path : FilePath) (env : Env) : V8Value × Env :=
  match self.archive_ with
  | none => (V8Value.False, env)
  | some archive =>
    match archive.Realpath path with
    | none => (V8Value.False, env)
    | some realpath => (V8Value.string realpath, env)

/-- The method `Archive::CopyFileOut`. -/
def CopyFileOut (self : Archive) (path : FilePath) (env : Env) : V8Value × Env :=
  match self.archive_ with
  | none => (V8Value.False, env)
  | some archive =>
    match archive.CopyFileOut path with
    | none => (V8Value.False, env)
    | some new_path => (V8Value.string new_path, env)

/-! ## Creation and path splitting -/

/-- The method `Archive::GetPath`, behind the property `path`; a null
`archive_` cannot be dereferenced (`none`). -/
def GetPath (self : Archive) : Option FilePath :=
  self.archive_.map (fun a => a.path)

/-- The static function `Archive::Create`. `Init` is the engine's
initialisation of a freshly constructed `asar::Archive(path)`: `none` when
`Init()` returns false, the loaded contents otherwise. Every call is logged in
`inits`. -/
def Create (Init : FilePath → Option ArchiveContents) (path : FilePath) (env : Env) :
    V8Value × Env :=
  let env1 := { env with inits := env.inits ++ [path] }
  match Init path with
  | none => (V8Value.False, env1)
  | some contents => (V8Value.wrapper ⟨some ⟨contents, path⟩⟩, env1)

/-- Calls `Create` on the same path `n` times in a row and returns the host
afterwards. -/
def createRepeatedly (Init : FilePath → Option ArchiveContents) (path : FilePath) :
    Nat → Env → Env
  | 0, env => env
  | n + 1, env => createRepeatedly Init path n (Create Init path env).2

/-- The free function `SplitPath`. `GetAsarArchivePath` is the engine's
archive-boundary split `asar::GetAsarArchivePath(path, &asar_path, &file_path,
allow_root)`. -/
def SplitPath (GetAsarArchivePath : FilePath → Bool → Option (FilePath × FilePath))
    (path : FilePath) : V8Value :=
  match GetAsarArchivePath path true with
  | some (asar_path, file_path) =>
    V8Value.object [("isAsar", V8Value.boolean true),
                    ("asarPath", V8Value.string asar_path),
                    ("filePath", V8Value.string file_path)]
  | none => V8Value.object [("isAsar", V8Value.boolean false)]

/-- The error with which a read failed: the pending exception when the call
came back with an empty handle, nothing otherwise. -/
def errorOf {α : Type} (r : Option (Option α × Env)) : Option String :=
  match r with
  | some (none, env) => env.exception
  | _ => none

/-! ## Concrete data used in examples -/

/-- The five bytes of `hello`. -/
def helloFile : MemoryMappedFile := ⟨[104, 101, 108, 108, 111], by decide⟩

/-- Engine contents with the blob `hello` and one file `foo.txt` at offset 0
of size 5. -/
def helloContents : ArchiveContents where
  file := helloFile
  GetFileInfo := fun p => if p = "foo.txt" then some ⟨5, false, 0⟩ else none
  Stat := fun p =>
    if p = "foo.txt" then some ⟨5, 0, true, false, false⟩
    else if p = "" then some ⟨0, 0, false, true, false⟩ else none
  Readdir := fun p => if p = "" then some ["foo.txt"] else none
  Realpath := fun p => if p = "foo.txt" then some "foo.txt" else none
  CopyFileOut := fun p => if p = "foo.txt" then some "/tmp/foo.txt" else none

/-- The wrapper of an archive at `/app.asar` holding `helloContents`. -/
def helloArchive : Archive := ⟨some ⟨helloContents, "/app.asar"⟩⟩

/-- Engine contents whose file `big.bin` lies at offset `2 ^ 53 + 1`, which no
double represents. -/
def bigContents : ArchiveContents where
  file := helloFile
  GetFileInfo := fun p => if p = "big.bin" then some ⟨5, false, 9007199254740993⟩ else none
  Stat := fun p =>
    if p = "big.bin" then some ⟨5, 9007199254740993, true, false, false⟩ else none
  Readdir := fun _ => none
  Realpath := fun _ => none
  CopyFileOut := fun _ => none

/-- The wrapper of an archive at `/big.asar` holding `bigContents`. -/
def bigArchive : Archive := ⟨some ⟨bigContents, "/big.asar"⟩⟩

/-- An engine `Init` that succeeds on `/app.asar` only. -/
def helloInit : FilePath → Option ArchiveContents :=
  fun p => if p = "/app.asar" then some helloContents else none

/-- An engine split that recognises the archive `/app.asar` only. -/
def helloSplit : FilePath → Bool → Option (FilePath × FilePath) :=
  fun p _ => if p = "/app.asar/foo.txt" then some ("/app.asar", "foo.txt") else none

/-! ## Lemmas on the primitives -/

/-- A copy that stays inside the source yields the requested slice. -/
theorem memcpy_in_bounds (src : List Nat) (n offset : Nat) (h : offset + n ≤ src.length) :
    memcpy src offset n = some ((src.drop offset).take n) := by
  induction n generalizing offset with
  | zero => simp [memcpy]
  | succ n ih =>
    have hlt : offset < src.length := by omega
    have hd : src.drop offset = src[offset] :: src.drop (offset + 1) :=
      List.drop_eq_getElem_cons hlt
    rw [memcpy, List.getElem?_eq_getElem hlt, ih (offset + 1) (by omega), hd]
    rfl

/-- A value of at most `2 ^ 53` reaches script unchanged. -/
theorem uint64ToDouble_exact (n : Nat) (h : n ≤ 2 ^ 53) : uint64ToDouble n = n := by
  rcases Nat.lt_or_eq_of_le h with hlt | heq
  · have he : lostBits 64 n = 0 := by
      show lostBits (63 + 1) n = 0
      rw [lostBits, if_pos hlt]
    simp only [uint64ToDouble, he, pow_zero, Nat.mod_one, Nat.div_one, Nat.mul_one]
    simp
  · subst heq
    rfl

/-- The checked sum is valid, and is the sum, when the sum fits in 64 bits. -/
theorem checked_add_valid (offset length : Nat) (h : offset + length ≤ UINT64_MAX) :
    CheckedNumeric.add (some offset) length = some (offset + length) := by
  simp [CheckedNumeric.add, h]

/-- The checked sum is invalid when the sum does not fit in 64 bits. -/
theorem checked_add_invalid (offset length : Nat) (h : UINT64_MAX < offset + length) :
    CheckedNumeric.add (some offset) length = none := by
  simp [CheckedNumeric.add, Nat.not_le.mpr h]

/-- The refusing path of `ReadSync`, in closed form. -/
theorem readSync_rejects (archive : AsarArchive) (offset length : Nat) (env : Env)
    (h : archive.file.length < offset + length) :
    ReadSync ⟨some archive⟩ offset length env
      = some (none, ThrowError outOfBoundsMessage env) := by
  by_cases hv : offset + length ≤ UINT64_MAX
  · simp [ReadSync, checked_add_valid offset length hv, h]
  · simp [ReadSync, checked_add_invalid offset length (Nat.not_le.mp hv)]

/-- The refusing path of `Read`, in closed form. -/
theorem read_rejects (archive : AsarArchive) (offset length : Nat) (env : Env)
    (h : archive.file.length < offset + length) :
    Read ⟨some archive⟩ offset length env
      = some (none, ThrowError outOfBoundsMessage (NewPromise env).2) := by
  by_cases hv : offset + length ≤ UINT64_MAX
  · simp [Read, checked_add_valid offset length hv, h]
  · simp [Read, checked_add_invalid offset length (Nat.not_le.mp hv)]

/-- The accepting path of `ReadSync`, in closed form. -/
theorem readSync_accepts (archive : AsarArchive) (offset length : Nat) (env : Env)
    (h : offset + length ≤ archive.file.length) :
    ReadSync ⟨some archive⟩ offset length env
      = some (some ((archive.file.data.drop offset).take length),
          logMem (MemOp.memcpy offset length)
            (logMem (MemOp.newArrayBuffer length) env)) := by
  have hv : offset + length ≤ UINT64_MAX := le_trans h archive.file.length_le
  have hm := memcpy_in_bounds archive.file.data length offset h
  simp [ReadSync, checked_add_valid offset length hv, Nat.not_lt.mpr h, hm]

/-- The accepting path of `Read`, in closed form. -/
theorem read_accepts (archive : AsarArchive) (offset length : Nat) (env : Env)
    (h : offset + length ≤ archive.file.length) :
    Read ⟨some archive⟩ offset length env
      = some (some env.promises.length,
          PostTaskAndReplyWithResult ⟨some archive, offset, length, env.promises.length⟩
            (NewPromise env).2) := by
  have hv : offset + length ≤ UINT64_MAX := le_trans h archive.file.length_le
  simp [Read, checked_add_valid offset length hv, Nat.not_lt.mpr h, NewPromise]

/-! ## Bounds-checked synchronous read -/

/-- C1: for every archive blob and every offset and length with
`offset + length` at most the blob length, `readSync` raises no error and
returns a buffer of exactly `length` bytes whose `i`-th byte is the blob's byte
at `offset + i`. -/
theorem readSync_returns_range (archive : AsarArchive) (offset length : Nat) (env : Env)
    (h : offset + length ≤ archive.file.length) :
    ∃ buffer env1,
      ReadSync ⟨some archive⟩ offset length env = some (some buffer, env1) ∧
      env1.exception = env.exception ∧
      buffer.length = length ∧
      ∀ i, i < length →
        ∃ b, buffer[i]? = some b ∧ archive.file.data[offset + i]? = some b := by
  refine ⟨_, _, readSync_accepts archive offset length env h, rfl, ?_, ?_⟩
  · simp only [MemoryMappedFile.length] at h
    simp only [List.length_take, List.length_drop]
    omega
  · intro i hi
    simp only [MemoryMappedFile.length] at h
    have hlt : offset + i < archive.file.data.length := by omega
    refine ⟨archive.file.data[offset + i], ?_, List.getElem?_eq_getElem hlt⟩
    rw [List.getElem?_take_of_lt hi, List.getElem?_drop, List.getElem?_eq_getElem hlt]

/-- C1 at the blob `hello`: `readSync(0, 5)` returns the five bytes of `hello`. -/
theorem readSync_returns_range_witness :
    (0 + 5 ≤ helloFile.length) ∧
    (∃ buffer env1,
      ReadSync helloArchive 0 5 Env.empty = some (some buffer, env1) ∧
      env1.exception = Env.empty.exception ∧
      buffer.length = 5 ∧
      ∀ i, i < 5 →
        ∃ b, buffer[i]? = some b ∧ helloFile.data[0 + i]? = some b) ∧
    ReadSync helloArchive 0 5 Env.empty
      = some (some [104, 101, 108, 108, 111],
          ⟨none, [], [], [MemOp.newArrayBuffer 5, MemOp.memcpy 0 5], []⟩) :=
  ⟨by decide,
   readSync_returns_range ⟨helloContents, "/app.asar"⟩ 0 5 Env.empty (by decide),
   rfl⟩

/-- C2: for every archive blob and every offset and length whose sum, taken in
the natural numbers, exceeds the blob length (sums that do not fit in 64 bits
included), `readSync` and `read` both come back with an empty handle and the
error pending, and neither allocates a buffer, copies from the blob or posts a
task that would. -/
theorem read_out_of_bounds_fails (archive : AsarArchive) (offset length : Nat) (env : Env)
    (h : archive.file.length < offset + length) :
    (∃ env1,
      ReadSync ⟨some archive⟩ offset length env = some (none, env1) ∧
      env1.exception = some outOfBoundsMessage ∧
      env1.memOps = env.memOps ∧ env1.tasks = env.tasks) ∧
    (∃ env2,
      Read ⟨some archive⟩ offset length env = some (none, env2) ∧
      env2.exception = some outOfBoundsMessage ∧
      env2.memOps = env.memOps ∧ env2.tasks = env.tasks) :=
  ⟨⟨_, readSync_rejects archive offset length env h, rfl, rfl, rfl⟩,
   ⟨_, read_rejects archive offset length env h, rfl, rfl, rfl⟩⟩

/-- C2 at the blob `hello`: `(3, 5)` runs past the end, and `(2^64 - 1, 1)` does
not fit in 64 bits; both are refused by both reads. -/
theorem read_out_of_bounds_fails_witness :
    (helloFile.length < 3 + 5) ∧
    ((∃ env1,
      ReadSync helloArchive 3 5 Env.empty = some (none, env1) ∧
      env1.exception = some outOfBoundsMessage ∧
      env1.memOps = Env.empty.memOps ∧ env1.tasks = Env.empty.tasks) ∧
    (∃ env2,
      Read helloArchive 3 5 Env.empty = some (none, env2) ∧
      env2.exception = some outOfBoundsMessage ∧
      env2.memOps = Env.empty.memOps ∧ env2.tasks = Env.empty.tasks)) ∧
    (helloFile.length < UINT64_MAX + 1) ∧
    ((∃ env1,
      ReadSync helloArchive UINT64_MAX 1 Env.empty = some (none, env1) ∧
      env1.exception = some outOfBoundsMessage ∧
      env1.memOps = Env.empty.memOps ∧ env1.tasks = Env.empty.tasks) ∧
    (∃ env2,
      Read helloArchive UINT64_MAX 1 Env.empty = some (none, env2) ∧
      env2.exception = some outOfBoundsMessage ∧
      env2.memOps = Env.empty.memOps ∧ env2.tasks = Env.empty.tasks)) :=
  ⟨by decide,
   read_out_of_bounds_fails ⟨helloContents, "/app.asar"⟩ 3 5 Env.empty (by decide),
   by decide,
   read_out_of_bounds_fails ⟨helloContents, "/app.asar"⟩ UINT64_MAX 1 Env.empty (by decide)⟩

/-! ## One error for both refusals -/

/-- C3, as stated, fails: on the blob `hello` the request `(2^64 - 1, 1)`, whose
64-bit sum overflows, and the request `(3, 5)`, whose sum fits but runs past
the end, are refused with the very same error by `readSync` and by `read`, so
the error does not tell the two conditions apart. -/
theorem read_errors_not_distinguished :
    UINT64_MAX < UINT64_MAX + 1 ∧
    (3 + 5 ≤ UINT64_MAX ∧ helloFile.length < 3 + 5) ∧
    errorOf (ReadSync helloArchive UINT64_MAX 1 Env.empty) = some outOfBoundsMessage ∧
    errorOf (ReadSync helloArchive UINT64_MAX 1 Env.empty)
      = errorOf (ReadSync helloArchive 3 5 Env.empty) ∧
    errorOf (Read helloArchive UINT64_MAX 1 Env.empty) = some outOfBoundsMessage ∧
    errorOf (Read helloArchive UINT64_MAX 1 Env.empty)
      = errorOf (Read helloArchive 3 5 Env.empty) :=
  ⟨by decide, ⟨by decide, by decide⟩, rfl, rfl, rfl, rfl⟩

/-- C3, amended: for every offset and length whose 64-bit sum overflows, and
for every offset and length whose sum fits but exceeds the blob length,
`readSync` and `read` fail with one and the same error, "Out of bounds read
requested in ASAR"; the error does not say which of the two conditions held. -/
theorem read_errors_coincide (archive : AsarArchive) (offset length : Nat) (env : Env)
    (h : UINT64_MAX < offset + length ∨
      (offset + length ≤ UINT64_MAX ∧ archive.file.length < offset + length)) :
    errorOf (ReadSync ⟨some archive⟩ offset length env) = some outOfBoundsMessage ∧
    errorOf (Read ⟨some archive⟩ offset length env) = some outOfBoundsMessage := by
  have h1 : archive.file.length < offset + length := by
    rcases h with hover | ⟨_, hout⟩
    · exact lt_of_le_of_lt archive.file.length_le hover
    · exact hout
  rw [readSync_rejects archive offset length env h1,
    read_rejects archive offset length env h1]
  exact ⟨rfl, rfl⟩

/-- C3, amended, at the blob `hello` with the requests `(2^64 - 1, 1)` and
`(3, 5)`. -/
theorem read_errors_coincide_witness :
    (UINT64_MAX < UINT64_MAX + 1) ∧
    (errorOf (ReadSync helloArchive UINT64_MAX 1 Env.empty) = some outOfBoundsMessage ∧
     errorOf (Read helloArchive UINT64_MAX 1 Env.empty) = some outOfBoundsMessage) ∧
    (3 + 5 ≤ UINT64_MAX ∧ helloFile.length < 3 + 5) ∧
    (errorOf (ReadSync helloArchive 3 5 Env.empty) = some outOfBoundsMessage ∧
     errorOf (Read helloArchive 3 5 Env.empty) = some outOfBoundsMessage) :=
  ⟨by decide,
   read_errors_coincide ⟨helloContents, "/app.asar"⟩ UINT64_MAX 1 Env.empty
     (Or.inl (by decide)),
   ⟨by decide, by decide⟩,
   read_errors_coincide ⟨helloContents, "/app.asar"⟩ 3 5 Env.empty
     (Or.inr ⟨by decide, by decide⟩)⟩

/-! ## The asynchronous read -/

/-- Running a posted in-bounds copy resolves its pending promise with the slice. -/
theorem runTask_resolves (archive : AsarArchive) (offset length promise : Nat) (env : Env)
    (h : offset + length ≤ archive.file.length)
    (hp : env.promises[promise]? = some PromiseState.pending) :
    ∃ env1 env2,
      ReadOnIO (some archive) offset length env
        = some ((archive.file.data.drop offset).take length, env1) ∧
      runTask ⟨some archive, offset, length, promise⟩ env = some env2 ∧
      env2.promises[promise]?
        = some (PromiseState.resolved ((archive.file.data.drop offset).take length)) ∧
      env2.exception = env.exception := by
  have hm := memcpy_in_bounds archive.file.data length offset h
  have hlt : promise < env.promises.length := by
    rcases Nat.lt_or_ge promise env.promises.length with hl | hl
    · exact hl
    · rw [List.getElem?_eq_none hl] at hp
      cases hp
  refine ⟨logMem (MemOp.memcpy offset length) (logMem (MemOp.newBackingStore length) env),
    ResolveReadOnUI promise ((archive.file.data.drop offset).take length)
      (logMem (MemOp.memcpy offset length) (logMem (MemOp.newBackingStore length) env)),
    ?_, ?_, ?_, ?_⟩
  · simp only [ ReadOnIO, hm]
  · simp only [runTask, ReadOnIO, hm]
  · simp [ResolveReadOnUI, Resolve, logMem, hp, hlt]
  · simp [ResolveReadOnUI, Resolve, logMem, hp]

/-- C4: `read` is refused by validation exactly when `readSync` is, and
whenever `readSync` returns a buffer, `read` returns a promise and posts one
task whose copy (`ReadOnIO`) yields the same bytes and whose reply
(`ResolveReadOnUI`) resolves that promise with them. -/
theorem read_matches_readSync (archive : AsarArchive) (offset length : Nat) (env : Env) :
    ((∃ env1, ReadSync ⟨some archive⟩ offset length env = some (none, env1)) ↔
     (∃ env2, Read ⟨some archive⟩ offset length env = some (none, env2))) ∧
    (∀ buffer env1,
      ReadSync ⟨some archive⟩ offset length env = some (some buffer, env1) →
      ∃ promise env2 task env3 env4,
        Read ⟨some archive⟩ offset length env = some (some promise, env2) ∧
        postedTasks env env2 = [task] ∧
        ReadOnIO task.archive task.offset task.length env2 = some (buffer, env3) ∧
        runTask task env2 = some env4 ∧
        env4.promises[promise]? = some (PromiseState.resolved buffer)) := by
  by_cases h : offset + length ≤ archive.file.length
  · have hs := readSync_accepts archive offset length env h
    have hr := read_accepts archive offset length env h
    refine ⟨?_, ?_⟩
    · rw [hs, hr]
      constructor <;> (rintro ⟨e, he⟩; simp at he)
    · intro buffer env1 hb
      rw [hs] at hb
      have hbuf : (archive.file.data.drop offset).take length = buffer := by
        simp only [Option.some.injEq, Prod.mk.injEq] at hb
        exact hb.1
      subst hbuf
      have hp : (PostTaskAndReplyWithResult
          ⟨some archive, offset, length, env.promises.length⟩
          (NewPromise env).2).promises[env.promises.length]?
            = some PromiseState.pending := by
        simp [PostTaskAndReplyWithResult, NewPromise]
      obtain ⟨env3, env4, h3, h4, h5, _⟩ :=
        runTask_resolves archive offset length env.promises.length _ h hp
      refine ⟨_, _, ⟨some archive, offset, length, env.promises.length⟩, env3, env4,
        hr, ?_, h3, h4, h5⟩
      simp [postedTasks, PostTaskAndReplyWithResult, NewPromise]
  · have h1 : archive.file.length < offset + length := Nat.not_le.mp h
    refine ⟨?_, ?_⟩
    · exact ⟨fun _ => ⟨_, read_rejects archive offset length env h1⟩,
        fun _ => ⟨_, readSync_rejects archive offset length env h1⟩⟩
    · intro buffer env1 hb
      rw [readSync_rejects archive offset length env h1] at hb
      simp at hb

/-- C4 at the blob `hello`: `readSync(1, 3)` returns `ell`, and the task posted
by `read(1, 3)` resolves the returned promise with `ell`. -/
theorem read_matches_readSync_witness :
    ReadSync helloArchive 1 3 Env.empty
      = some (some [101, 108, 108],
          ⟨none, [], [], [MemOp.newArrayBuffer 3, MemOp.memcpy 1 3], []⟩) ∧
    ∃ promise env2 task env3 env4,
      Read helloArchive 1 3 Env.empty = some (some promise, env2) ∧
      postedTasks Env.empty env2 = [task] ∧
      ReadOnIO task.archive task.offset task.length env2
        = some ([101, 108, 108], env3) ∧
      runTask task env2 = some env4 ∧
      env4.promises[promise]? = some (PromiseState.resolved [101, 108, 108]) :=
  ⟨rfl,
   (read_matches_readSync ⟨helloContents, "/app.asar"⟩ 1 3 Env.empty).2
     [101, 108, 108] _ rfl⟩

/-- C5, as stated, fails: on the blob `hello`, `read(3, 5)` comes back with an
empty handle instead of a promise, the error is raised at once as the pending
exception of the call, and the one promise that was created is still pending,
not rejected. -/
theorem read_rejection_not_on_promise :
    Read helloArchive 3 5 Env.empty
      = some (none, ⟨some outOfBoundsMessage, [PromiseState.pending], [], [], []⟩) :=
  rfl

/-- C5, amended: when `read` is given an offset and length whose sum exceeds the
blob length (or does not fit in 64 bits), the failure is raised synchronously
from the call: `read` returns an empty handle with the out-of-bounds error
pending, the promise it created stays pending and no other promise changes, and
no task is posted that could settle it. -/
theorem read_out_of_bounds_throws (archive : AsarArchive) (offset length : Nat) (env : Env)
    (h : archive.file.length < offset + length) :
    ∃ env1,
      Read ⟨some archive⟩ offset length env = some (none, env1) ∧
      env1.exception = some outOfBoundsMessage ∧
      env1.promises = env.promises ++ [PromiseState.pending] ∧
      postedTasks env env1 = [] :=
  ⟨_, read_rejects archive offset length env h, rfl, rfl, by
    simp [postedTasks, ThrowError, NewPromise]⟩

/-- C5, amended, at the blob `hello` with the request `(3, 5)`. -/
theorem read_out_of_bounds_throws_witness :
    (helloFile.length < 3 + 5) ∧
    ∃ env1,
      Read helloArchive 3 5 Env.empty = some (none, env1) ∧
      env1.exception = some outOfBoundsMessage ∧
      env1.promises = Env.empty.promises ++ [PromiseState.pending] ∧
      postedTasks Env.empty env1 = [] :=
  ⟨by decide,
   read_out_of_bounds_throws ⟨helloContents, "/app.asar"⟩ 3 5 Env.empty (by decide)⟩

/-- C6: a call to `read` that validation refuses posts no task, and a call that
passes validation posts exactly one task, bound to the call's archive, offset
and length and to the returned promise; that promise is pending when `read`
returns, and running the task with its reply resolves it. -/
theorem read_posts_at_most_one_task (archive : AsarArchive) (offset length : Nat)
    (env : Env) :
    (archive.file.length < offset + length →
      ∃ env1,
        Read ⟨some archive⟩ offset length env = some (none, env1) ∧
        postedTasks env env1 = []) ∧
    (offset + length ≤ archive.file.length →
      ∃ promise env1 env2 buffer,
        Read ⟨some archive⟩ offset length env = some (some promise, env1) ∧
        postedTasks env env1 = [⟨some archive, offset, length, promise⟩] ∧
        env1.promises[promise]? = some PromiseState.pending ∧
        runTask ⟨some archive, offset, length, promise⟩ env1 = some env2 ∧
        env2.promises[promise]? = some (PromiseState.resolved buffer)) := by
  refine ⟨fun h => ?_, fun h => ?_⟩
  · exact ⟨_, read_rejects archive offset length env h, by
      simp [postedTasks, ThrowError, NewPromise]⟩
  · have hp : (PostTaskAndReplyWithResult
        ⟨some archive, offset, length, env.promises.length⟩
        (NewPromise env).2).promises[env.promises.length]?
          = some PromiseState.pending := by
      simp [PostTaskAndReplyWithResult, NewPromise]
    obtain ⟨_, env2, _, h4, h5, _⟩ :=
      runTask_resolves archive offset length env.promises.length _ h hp
    exact ⟨_, _, env2, _, read_accepts archive offset length env h,
      by simp [postedTasks, PostTaskAndReplyWithResult, NewPromise], hp, h4, h5⟩

/-- C6 at the blob `hello`: `read(3, 5)` posts nothing, `read(0, 5)` posts one
task. -/
theorem read_posts_at_most_one_task_witness :
    (helloFile.length < 3 + 5) ∧
    (∃ env1,
      Read helloArchive 3 5 Env.empty = some (none, env1) ∧
      postedTasks Env.empty env1 = []) ∧
    (0 + 5 ≤ helloFile.length) ∧
    (∃ promise env1 env2 buffer,
      Read helloArchive 0 5 Env.empty = some (some promise, env1) ∧
      postedTasks Env.empty env1 = [⟨helloArchive.archive_, 0, 5, promise⟩] ∧
      env1.promises[promise]? = some PromiseState.pending ∧
      runTask ⟨helloArchive.archive_, 0, 5, promise⟩ env1 = some env2 ∧
      env2.promises[promise]? = some (PromiseState.resolved buffer)) :=
  ⟨by decide,
   (read_posts_at_most_one_task ⟨helloContents, "/app.asar"⟩ 3 5 Env.empty).1 (by decide),
   by decide,
   (read_posts_at_most_one_task ⟨helloContents, "/app.asar"⟩ 0 5 Env.empty).2 (by decide)⟩

/-! ## The lookup wrappers -/

/-- C7: each of `getFileInfo`, `stat`, `readdir`, `realpath` and `copyFileOut`
leaves the host untouched (no exception is raised); it returns `false` when the
wrapper holds no archive or the engine lookup fails, and when the engine lookup
succeeds it returns a value other than `false` built from the engine's output:
the fields `size`, `unpacked`, `offset`; the fields `size`, `offset`, `isFile`,
`isDirectory`, `isLink`; the names in the engine's order; the path. The numeric
fields are the engine's values as script numbers, that is, converted to
doubles, which leaves every value up to `2 ^ 53` unchanged. -/
theorem lookups_absent_or_found (self : Archive) (path : FilePath) (env : Env) :
    ((GetFileInfo self path env).2 = env ∧
     ((self.archive_ = none ∨ ∃ a, self.archive_ = some a ∧ a.GetFileInfo path = none) →
        (GetFileInfo self path env).1 = V8Value.False) ∧
     (∀ a info, self.archive_ = some a → a.GetFileInfo path = some info →
        (GetFileInfo self path env).1
          = V8Value.object [("size", V8Value.number (uint64ToDouble info.size)),
                            ("unpacked", V8Value.boolean info.unpacked),
                            ("offset", V8Value.number (uint64ToDouble info.offset))] ∧
        (GetFileInfo self path env).1 ≠ V8Value.False)) ∧
    ((Stat self path env).2 = env ∧
     ((self.archive_ = none ∨ ∃ a, self.archive_ = some a ∧ a.Stat path = none) →
        (Stat self path env).1 = V8Value.False) ∧
     (∀ a stats, self.archive_ = some a → a.Stat path = some stats →
        (Stat self path env).1
          = V8Value.object [("size", V8Value.number (uint64ToDouble stats.size)),
                            ("offset", V8Value.number (uint64ToDouble stats.offset)),
                            ("isFile", V8Value.boolean stats.is_file),
                            ("isDirectory", V8Value.boolean stats.is_directory),
                            ("isLink", V8Value.boolean stats.is_link)] ∧
        (Stat self path env).1 ≠ V8Value.False)) ∧
    ((Readdir self path env).2 = env ∧
     ((self.archive_ = none ∨ ∃ a, self.archive_ = some a ∧ a.Readdir path = none) →
        (Readdir self path env).1 = V8Value.False) ∧
     (∀ a files, self.archive_ = some a → a.Readdir path = some files →
        (Readdir self path env).1 = V8Value.array (files.map V8Value.string) ∧
        (Readdir self path env).1 ≠ V8Value.False)) ∧
    ((Realpath self path env).2 = env ∧
     ((self.archive_ = none ∨ ∃ a, self.archive_ = some a ∧ a.Realpath path = none) →
        (Realpath self path env).1 = V8Value.False) ∧
     (∀ a realpath, self.archive_ = some a → a.Realpath path = some realpath →
        (Realpath self path env).1 = V8Value.string realpath ∧
        (Realpath self path env).1 ≠ V8Value.False)) ∧
    ((CopyFileOut self path env).2 = env ∧
     ((self.archive_ = none ∨ ∃ a, self.archive_ = some a ∧ a.CopyFileOut path = none) →
        (CopyFileOut self path env).1 = V8Value.False) ∧
     (∀ a new_path, self.archive_ = some a → a.CopyFileOut path = some new_path →
        (CopyFileOut self path env).1 = V8Value.string new_path ∧
        (CopyFileOut self path env).1 ≠ V8Value.False)) ∧
    (∀ n, n ≤ 2 ^ 53 → uint64ToDouble n = n) := by
  refine ⟨?_, ?_, ?_, ?_, ?_, uint64ToDouble_exact⟩ <;> obtain ⟨archive_⟩ := self <;>
    cases archive_ with
    | none => simp [GetFileInfo, Stat, Readdir, Realpath, CopyFileOut]
    | some a =>
      first
      | (cases h : a.GetFileInfo path <;> simp [GetFileInfo, h, V8Value.False] <;>
          (intro a1 x ha hx; subst ha; rw [h] at hx; cases hx <;> simp))
      | (cases h : a.Stat path <;> simp [Stat, h, V8Value.False] <;>
          (intro a1 x ha hx; subst ha; rw [h] at hx; cases hx <;> simp))
      | (cases h : a.Readdir path <;> simp [Readdir, h, V8Value.False] <;>
          (intro a1 x ha hx; subst ha; rw [h] at hx; cases hx <;> simp))
      | (cases h : a.Realpath path <;> simp [Realpath, h, V8Value.False] <;>
          (intro a1 x ha hx; subst ha; rw [h] at hx; cases hx <;> simp))
      | (cases h : a.CopyFileOut path <;> simp [CopyFileOut, h, V8Value.False] <;>
          (intro a1 x ha hx; subst ha; rw [h] at hx; cases hx <;> simp))

/-- C7 on concrete archives: `foo.txt` is found by `getFileInfo` with its size
and offset unchanged; `readdir` of `foo.txt`, which is not a directory, and
`getFileInfo` on a wrapper without archive both return `false`; and the offset
`2 ^ 53 + 1` of `big.bin` reaches script as `2 ^ 53`. -/
theorem lookups_absent_or_found_witness :
    ((GetFileInfo helloArchive "foo.txt" Env.empty).1
      = V8Value.object [("size", V8Value.number 5),
                        ("unpacked", V8Value.boolean false),
                        ("offset", V8Value.number 0)] ∧
     (GetFileInfo helloArchive "foo.txt" Env.empty).1 ≠ V8Value.False) ∧
    (Readdir helloArchive "foo.txt" Env.empty).1 = V8Value.False ∧
    (GetFileInfo ⟨none⟩ "foo.txt" Env.empty).1 = V8Value.False ∧
    ((GetFileInfo bigArchive "big.bin" Env.empty).1
      = V8Value.object [("size", V8Value.number 5),
                        ("unpacked", V8Value.boolean false),
                        ("offset", V8Value.number 9007199254740992)] ∧
     (GetFileInfo bigArchive "big.bin" Env.empty).1 ≠ V8Value.False) ∧
    ((Stat bigArchive "big.bin" Env.empty).1
      = V8Value.object [("size", V8Value.number 5),
                        ("offset", V8Value.number 9007199254740992),
                        ("isFile", V8Value.boolean true),
                        ("isDirectory", V8Value.boolean false),
                        ("isLink", V8Value.boolean false)] ∧
     (Stat bigArchive "big.bin" Env.empty).1 ≠ V8Value.False) :=
  ⟨(lookups_absent_or_found helloArchive "foo.txt" Env.empty).1.2.2
      ⟨helloContents, "/app.asar"⟩ ⟨5, false, 0⟩ rfl rfl,
   (lookups_absent_or_found helloArchive "foo.txt" Env.empty).2.2.1.2.1
      (Or.inr ⟨⟨helloContents, "/app.asar"⟩, rfl, rfl⟩),
   (lookups_absent_or_found ⟨none⟩ "foo.txt" Env.empty).1.2.1 (Or.inl rfl),
   (lookups_absent_or_found bigArchive "big.bin" Env.empty).1.2.2
      ⟨bigContents, "/big.asar"⟩ ⟨5, false, 9007199254740993⟩ rfl rfl,
   (lookups_absent_or_found bigArchive "big.bin" Env.empty).2.1.2.2
      ⟨bigContents, "/big.asar"⟩ ⟨5, 9007199254740993, true, false, false⟩ rfl rfl⟩

/-! ## Path splitting -/

/-- C8, as stated, fails on the field names: for a path outside any archive the
result is the object with the single field `isAsar`, not `isArchive`, and for a
path inside `/app.asar` the fields are `isAsar`, `asarPath` and `filePath`, not
`isArchive`, `archivePath` and `internalPath`. -/
theorem splitPath_field_names_differ :
    helloSplit "/etc/hosts" true = none ∧
    SplitPath helloSplit "/etc/hosts"
      = V8Value.object [("isAsar", V8Value.boolean false)] ∧
    SplitPath helloSplit "/etc/hosts"
      ≠ V8Value.object [("isArchive", V8Value.boolean false)] ∧
    helloSplit "/app.asar/foo.txt" true = some ("/app.asar", "foo.txt") ∧
    SplitPath helloSplit "/app.asar/foo.txt"
      = V8Value.object [("isAsar", V8Value.boolean true),
                        ("asarPath", V8Value.string "/app.asar"),
                        ("filePath", V8Value.string "foo.txt")] ∧
    SplitPath helloSplit "/app.asar/foo.txt"
      ≠ V8Value.object [("isArchive", V8Value.boolean true),
                        ("archivePath", V8Value.string "/app.asar"),
                        ("internalPath", V8Value.string "foo.txt")] := by
  refine ⟨rfl, rfl, ?_, rfl, rfl, ?_⟩
  · have h : SplitPath helloSplit "/etc/hosts"
        = V8Value.object [("isAsar", V8Value.boolean false)] := rfl
    rw [h]
    simp
  · have h : SplitPath helloSplit "/app.asar/foo.txt"
        = V8Value.object [("isAsar", V8Value.boolean true),
                          ("asarPath", V8Value.string "/app.asar"),
                          ("filePath", V8Value.string "foo.txt")] := rfl
    rw [h]
    simp

/-- C8, amended: for every absolute path, `splitPath` returns one of two
shapes: when the engine's split finds no archive, the object with the single
field `isAsar: false`; when it does, the object with `isAsar: true`, `asarPath`
and `filePath`, the latter two being exactly the archive path and the remainder
produced by the split. -/
theorem splitPath_shapes
    (GetAsarArchivePath : FilePath → Bool → Option (FilePath × FilePath))
    (path : FilePath) :
    (GetAsarArchivePath path true = none →
      SplitPath GetAsarArchivePath path
        = V8Value.object [("isAsar", V8Value.boolean false)]) ∧
    (∀ asar_path file_path, GetAsarArchivePath path true = some (asar_path, file_path) →
      SplitPath GetAsarArchivePath path
        = V8Value.object [("isAsar", V8Value.boolean true),
                          ("asarPath", V8Value.string asar_path),
                          ("filePath", V8Value.string file_path)]) := by
  refine ⟨fun h => ?_, fun a f h => ?_⟩ <;> simp [SplitPath, h]

/-- C8, amended, at a path outside any archive and at a path inside
`/app.asar`. -/
theorem splitPath_shapes_witness :
    helloSplit "/etc/hosts" true = none ∧
    SplitPath helloSplit "/etc/hosts"
      = V8Value.object [("isAsar", V8Value.boolean false)] ∧
    helloSplit "/app.asar/foo.txt" true = some ("/app.asar", "foo.txt") ∧
    SplitPath helloSplit "/app.asar/foo.txt"
      = V8Value.object [("isAsar", V8Value.boolean true),
                        ("asarPath", V8Value.string "/app.asar"),
                        ("filePath", V8Value.string "foo.txt")] :=
  ⟨rfl, (splitPath_shapes helloSplit "/etc/hosts").1 rfl,
   rfl, (splitPath_shapes helloSplit "/app.asar/foo.txt").2 _ _ rfl⟩

/-! ## Archive creation -/

/-- C9, as stated, fails: opening `/app.asar` twice runs the engine's `Init`
twice, although the first open succeeded; nothing is cached between the two
calls. -/
theorem create_twice_inits_twice :
    (∃ w, (Create helloInit "/app.asar" Env.empty).1 = V8Value.wrapper w) ∧
    (createRepeatedly helloInit "/app.asar" 1 Env.empty).inits = ["/app.asar"] ∧
    (createRepeatedly helloInit "/app.asar" 2 Env.empty).inits
      = ["/app.asar", "/app.asar"] :=
  ⟨⟨_, rfl⟩, rfl, rfl⟩

/-- C9, amended: opening is not cached by `createArchive`: every call
constructs a fresh engine archive and runs `Init` on it once, so that `n` opens
of one path perform exactly `n` initialisations. -/
theorem create_inits_every_time (Init : FilePath → Option ArchiveContents)
    (path : FilePath) (n : Nat) (env : Env) :
    (Create Init path env).2.inits = env.inits ++ [path] ∧
    (createRepeatedly Init path n env).inits = env.inits ++ List.replicate n path := by
  have hstep : ∀ e : Env, (Create Init path e).2.inits = e.inits ++ [path] := by
    intro e
    unfold Create
    cases Init path <;> rfl
  refine ⟨hstep env, ?_⟩
  induction n generalizing env with
  | zero => simp [createRepeatedly]
  | succ n ih =>
    rw [createRepeatedly, ih, hstep, List.replicate_succ, List.append_assoc]
    rfl

/-- C10: `createArchive` returns `false` exactly when `Init` fails, and then it
returns no wrapper, so no operation can be invoked on a failed archive; when
`Init` succeeds it returns a wrapper whose `path` is the path passed in. -/
theorem create_fails_iff_init_fails (Init : FilePath → Option ArchiveContents)
    (path : FilePath) (env : Env) :
    ((Create Init path env).1 = V8Value.False ↔ Init path = none) ∧
    (Init path = none → ∀ w, (Create Init path env).1 ≠ V8Value.wrapper w) ∧
    (∀ contents, Init path = some contents →
      ∃ w, (Create Init path env).1 = V8Value.wrapper w ∧
        w.archive_ = some ⟨contents, path⟩ ∧ GetPath w = some path) := by
  cases h : Init path <;> simp [Create, h, V8Value.False, GetPath]

/-- C10 at the engine that knows `/app.asar` only: opening `/app.asar` gives a
wrapper with that path, opening `/missing.asar` gives `false`. -/
theorem create_fails_iff_init_fails_witness :
    (∃ w, (Create helloInit "/app.asar" Env.empty).1 = V8Value.wrapper w ∧
      w.archive_ = some ⟨helloContents, "/app.asar"⟩ ∧ GetPath w = some "/app.asar") ∧
    (Create helloInit "/missing.asar" Env.empty).1 = V8Value.False :=
  ⟨(create_fails_iff_init_fails helloInit "/app.asar" Env.empty).2.2 helloContents rfl,
   (create_fails_iff_init_fails helloInit "/missing.asar" Env.empty).1.2 rfl⟩

end Asar
